import Mathlib

/-!
Verification development for the Tambola test application.

The repository's designated core is the Tambola ticket generator
(`generateTambolaTicket` in `src/app/api/tambola/subscribe/route.ts`,
duplicated line for line as `generateTicket` in the `TambolaTicket`
component) and the claim validation rules (`validateClaim` in the claim
API route, and the client-side checks `checkRowComplete` /
`checkFastFive` / `checkFullHouse` / `handleClaim` in the `TambolaTicket`
component).

Tickets are 3-row by 9-column grids whose cells hold a number or null.
We embed them as `List (List (Option Nat))`, exactly mirroring the
TypeScript `(number | null)[][]` representation.
-/

namespace Tambola

/-- A ticket grid: rows of cells, each cell a number or empty (null). -/
abbrev Grid := List (List (Option Nat))

/-- Read the cell at (row, col); out-of-range reads yield `none`,
matching the fact that the code never reads out of range. -/
def cell (g : Grid) (row col : Nat) : Option Nat :=
  (g.getD row []).getD col none

/-- Write the cell at (row, col), i.e. `ticket[row][col] = v`. A write
outside the grid's extent is a no-op (the code never performs one). -/
def setCell (g : Grid) (row col : Nat) (v : Option Nat) : Grid :=
  g.set row ((g.getD row []).set col v)

/-- The grid has exactly 3 rows of 9 cells each. -/
def Shape (g : Grid) : Prop :=
  g.length = 3 ∧ ∀ r ∈ g, r.length = 9

instance : DecidablePred Shape := fun g => by
  unfold Shape; infer_instance

/-! ## Claim validation (`src/unnamed/part_001`, the claim API route)

`validateClaim(claimType, markedNumbers, ticketNumbers)` from the claim
route. `claimType` arrives as a string (the TypeScript union is erased at
runtime and the function switches on string values, with a `default`
branch), `markedNumbers` is an array of numbers, and `ticketNumbers` is
the grid.
-/

/-- Result of `validateClaim`: the `{ isValid, message }` object. -/
structure ValidationResult where
  isValid : Bool
  message : String
deriving DecidableEq, Repr

/-- The filled numbers of the ticket in reading order:
`ticketNumbers.flat().filter(n => n !== null)`. -/
def flatTicketNumbers (ticketNumbers : Grid) : List Nat :=
  ticketNumbers.flatten.filterMap id

/-- Join numbers for display: `arr.join(', ')`. -/
def joinComma (l : List Nat) : String :=
  String.intercalate ", " (l.map toString)

/-- Replace the first occurrence of the pattern in a character list. -/
def replaceFirstChars (pat rep : List Char) : List Char → List Char
  | [] => []
  | c :: cs =>
    if pat.isPrefixOf (c :: cs) then rep ++ (c :: cs).drop pat.length
    else c :: replaceFirstChars pat rep cs

/-- JavaScript `s.replace(pat, rep)` with string arguments replaces only
the FIRST occurrence of `pat` (so `'second-full-house'.replace('-', ' ')`
is `"second full-house"`); for the nonempty patterns used here this is
exactly a first-occurrence replacement over the character list. -/
def replaceFirst (s pat rep : String) : String :=
  if pat = "" then s
  else ⟨replaceFirstChars pat.data rep.data s.data⟩

/-- `validateClaim` from the claim API route. The TypeScript `switch` is
rendered as a chain of string comparisons; fall-through case groups
(`'first-row' | 'second-row' | 'third-row'` and
`'full-house' | 'second-full-house'`) become disjunctions. -/
def validateClaim (claimType : String) (markedNumbers : List Nat)
    (ticketNumbers : Grid) : ValidationResult :=
  let flatNums := flatTicketNumbers ticketNumbers
  let invalidNumbers := markedNumbers.filter (fun num => !flatNums.contains num)
  if invalidNumbers.length > 0 then
    { isValid := false
      message := "Invalid numbers marked: " ++ joinComma invalidNumbers }
  else if claimType = "fast-five" then
    if markedNumbers.length < 5 then
      { isValid := false
        message := "Fast Five requires at least 5 marked numbers" }
    else
      { isValid := true, message := "Valid Fast Five claim" }
  else if claimType = "first-row" ∨ claimType = "second-row" ∨ claimType = "third-row" then
    let rowIndex : Nat :=
      if claimType = "first-row" then 0 else if claimType = "second-row" then 1 else 2
    let rowNumbers := (ticketNumbers.getD rowIndex []).filterMap id
    let rowComplete := rowNumbers.all (fun num => markedNumbers.contains num)
    if !rowComplete then
      { isValid := false
        message := replaceFirst claimType "-" " " ++ " is not complete. Missing numbers: " ++
          joinComma (rowNumbers.filter (fun num => !markedNumbers.contains num)) }
    else
      { isValid := true, message := "Valid " ++ replaceFirst claimType "-" " " ++ " claim" }
  else if claimType = "full-house" ∨ claimType = "second-full-house" then
    let allComplete := flatNums.all (fun num => markedNumbers.contains num)
    if !allComplete then
      { isValid := false
        message := "Full House is not complete. Missing numbers: " ++
          joinComma (flatNums.filter (fun num => !markedNumbers.contains num)) }
    else
      { isValid := true, message := "Valid " ++ replaceFirst claimType "-" " " ++ " claim" }
  else
    { isValid := false, message := "Invalid claim type" }

/-- `getMockTicket` from the claim API route: ignores its `ticketId`
argument and returns one hard-coded grid. -/
def getMockTicket (ticketId : String) : Grid :=
  [[some 5, none, some 23, none, some 45, none, some 67, none, some 89],
   [none, some 12, none, some 34, none, some 56, none, some 78, none],
   [some 8, none, some 29, none, some 41, none, some 63, none, some 85]]

/-! ## The POST claim endpoint (`src/unnamed/part_001`)

`POST` parses a `ClaimRequest` body, checks required fields for JS
truthiness (a string is falsy exactly when empty; the `markedNumbers`
array is always truthy once present), checks the claim type against the
enumerated list, validates against the mock ticket, and on success
builds a response with a prize from a static table and a claim id
containing `Date.now()` (modelled as the `now` argument). -/

/-- The parsed body of a claim POST request (the `environment` field is
never read by the handler's logic). -/
structure ClaimRequest where
  tournamentId : String
  userId : String
  ticketId : String
  claimType : String
  markedNumbers : List Nat
  userToken : String
deriving DecidableEq, Repr

/-- The observable response of the POST handler: HTTP status plus the
JSON body fields (absent JSON fields are `none`). -/
structure PostResponse where
  status : Nat
  success : Bool
  message : String
  isValid : Option Bool
  claimId : Option String
  prizeAmount : Option Nat
deriving DecidableEq, Repr

/-- `validClaimTypes` from the POST handler. -/
def validClaimTypes : List String :=
  ["fast-five", "first-row", "second-row", "third-row", "full-house", "second-full-house"]

/-- The static `prizeAmounts` table of the POST handler. -/
def prizeAmounts (claimType : String) : Nat :=
  if claimType = "fast-five" then 100
  else if claimType = "first-row" then 200
  else if claimType = "second-row" then 200
  else if claimType = "third-row" then 200
  else if claimType = "full-house" then 1000
  else if claimType = "second-full-house" then 500
  else 0

/-- The POST claim handler's decision logic (`now` stands for
`Date.now()`). -/
def postClaim (req : ClaimRequest) (now : Nat) : PostResponse :=
  if req.tournamentId = "" ∨ req.userId = "" ∨ req.ticketId = "" ∨
      req.claimType = "" ∨ req.userToken = "" then
    { status := 400, success := false, message := "Missing required fields"
      isValid := none, claimId := none, prizeAmount := none }
  else if !(validClaimTypes.contains req.claimType) then
    { status := 400, success := false, message := "Invalid claim type"
      isValid := none, claimId := none, prizeAmount := none }
  else
    let ticketNumbers := getMockTicket req.ticketId
    let validation := validateClaim req.claimType req.markedNumbers ticketNumbers
    if !validation.isValid then
      { status := 200, success := false, message := validation.message
        isValid := some false, claimId := none, prizeAmount := none }
    else
      { status := 200, success := true
        message := replaceFirst req.claimType "-" " " ++ " claim accepted successfully!"
        isValid := some true
        claimId := some ("claim-" ++ req.tournamentId ++ "-" ++ req.userId ++ "-" ++
          req.claimType ++ "-" ++ toString now)
        prizeAmount := some (prizeAmounts req.claimType) }

/-! ## The `TambolaTicket` component (`src/unnamed/part_004`)

Client-side state: `ticketData` (id, grid, marked-number `Set`) and
`claimState` (six booleans). The marked numbers live in a JavaScript
`Set`, embedded as `Finset Nat`. -/

/-- `TicketData` of the component. -/
structure TicketData where
  id : String
  numbers : Grid
  markedNumbers : Finset Nat
deriving DecidableEq

/-- `ClaimState` of the component: which claim types have been claimed. -/
structure ClaimState where
  fastFive : Bool
  firstRow : Bool
  secondRow : Bool
  thirdRow : Bool
  fullHouse : Bool
  secondFullHouse : Bool
deriving DecidableEq, Repr

/-- The all-false initial claim state. -/
def ClaimState.initial : ClaimState :=
  { fastFive := false, firstRow := false, secondRow := false
    thirdRow := false, fullHouse := false, secondFullHouse := false }

/-- The six claim keys of `ClaimState` (`keyof ClaimState`). -/
inductive ClaimKey where
  | fastFive
  | firstRow
  | secondRow
  | thirdRow
  | fullHouse
  | secondFullHouse
deriving DecidableEq, Repr

/-- Read the flag of one claim key. -/
def ClaimState.get (s : ClaimState) : ClaimKey → Bool
  | .fastFive => s.fastFive
  | .firstRow => s.firstRow
  | .secondRow => s.secondRow
  | .thirdRow => s.thirdRow
  | .fullHouse => s.fullHouse
  | .secondFullHouse => s.secondFullHouse

/-- `setClaimState(prev => ({ ...prev, [claimType]: true }))`. -/
def ClaimState.claim (s : ClaimState) : ClaimKey → ClaimState
  | .fastFive => { s with fastFive := true }
  | .firstRow => { s with firstRow := true }
  | .secondRow => { s with secondRow := true }
  | .thirdRow => { s with thirdRow := true }
  | .fullHouse => { s with fullHouse := true }
  | .secondFullHouse => { s with secondFullHouse := true }

/-- `toggleNumber`: copy the marked set, then delete the number if
present, else add it. -/
def toggleNumber (t : TicketData) (number : Nat) : TicketData :=
  let newMarkedNumbers :=
    if number ∈ t.markedNumbers then t.markedNumbers.erase number
    else insert number t.markedNumbers
  { t with markedNumbers := newMarkedNumbers }

/-- `checkRowComplete(rowIndex)`: every cell of the row is null or
marked. -/
def checkRowComplete (t : TicketData) (rowIndex : Nat) : Bool :=
  (t.numbers.getD rowIndex []).all fun num =>
    match num with
    | none => true
    | some n => decide (n ∈ t.markedNumbers)

/-- `checkFastFive()`: at least five marked numbers. -/
def checkFastFive (t : TicketData) : Bool :=
  decide (5 ≤ t.markedNumbers.card)

/-- `checkFullHouse()`: every non-null ticket number is marked. -/
def checkFullHouse (t : TicketData) : Bool :=
  (t.numbers.flatten.filterMap id).all fun n => decide (n ∈ t.markedNumbers)

/-- The `isValid` decision of `handleClaim` for each claim key
(structural check and not-already-claimed, plus the full-house
prerequisite for `secondFullHouse`). -/
def handleClaimValid (t : TicketData) (s : ClaimState) : ClaimKey → Bool
  | .fastFive => checkFastFive t && !s.fastFive
  | .firstRow => checkRowComplete t 0 && !s.firstRow
  | .secondRow => checkRowComplete t 1 && !s.secondRow
  | .thirdRow => checkRowComplete t 2 && !s.thirdRow
  | .fullHouse => checkFullHouse t && !s.fullHouse
  | .secondFullHouse => checkFullHouse t && s.fullHouse && !s.secondFullHouse

/-- `handleClaim`: if the claim is valid, record it in the claim state
(and report acceptance); otherwise leave the state unchanged (the
component alerts instead). -/
def handleClaim (t : TicketData) (s : ClaimState) (k : ClaimKey) : Bool × ClaimState :=
  if handleClaimValid t s k then (true, s.claim k) else (false, s)

/-- `resetTicket`: keep the ticket object but empty the marked set, and
reset the claim state to all false. -/
def resetTicket (t : TicketData) (s : ClaimState) : TicketData × ClaimState :=
  ({ t with markedNumbers := ∅ }, ClaimState.initial)

/-! ## Ticket generation

`generateTambolaTicket` (subscribe route) and `generateTicket`
(`TambolaTicket` component) construct the grid with identical code (the
two functions differ only in the id string and extra fields of the
returned object). We embed the shared grid construction once.

All uses of `Math.random()` are abstracted into a `RandSrc` oracle:
  - the Fisher-Yates shuffle of a column's available numbers is replaced
    by the oracle directly supplying the shuffled list (`colNums`); a
    shuffle always yields a permutation, so the oracle's list is
    required (in `WFRand`) to be duplicate-free and within the column's
    range;
  - `numbersToPlace = Math.floor(Math.random() * 2) + 1` becomes `colK`
    (required to be 1 or 2);
  - `[0, 1, 2].sort(() => Math.random() - 0.5)` becomes `rowPerm`
    (JavaScript sort always returns a permutation of its input, so the
    oracle's list is required to be duplicate-free with entries < 3);
  - `Math.floor(Math.random() * len)`, an arbitrary index below `len`,
    becomes an arbitrary natural reduced modulo `len` (`addPick`,
    `removePick`).
-/

/-- The `ranges` table: the designated number range of each column. -/
def ranges : List (Nat × Nat) :=
  [(1, 9), (10, 19), (20, 29), (30, 39), (40, 49),
   (50, 59), (60, 69), (70, 79), (80, 90)]

/-- Number `v` lies in column `col`'s designated range. -/
def inRange (col v : Nat) : Prop :=
  (ranges.getD col (0, 0)).1 ≤ v ∧ v ≤ (ranges.getD col (0, 0)).2

instance (col v : Nat) : Decidable (inRange col v) := by
  unfold inRange; infer_instance

/-- `Array.from({length: max - min + 1}, (_, i) => min + i)`: the
ascending list of a column's available numbers. -/
def rangeList (col : Nat) : List Nat :=
  let r := ranges.getD col (0, 0)
  List.range' r.1 (r.2 - r.1 + 1)

/-- Oracle holding every random choice the generator makes. -/
structure RandSrc where
  colNums : Nat → List Nat
  colK : Nat → Nat
  rowPerm : Nat → List Nat
  addPick : Nat → Nat → Nat
  removePick : Nat → Nat → Nat

/-- The outcomes `Math.random()`-driven code can actually produce:
shuffles are permutations (we only require duplicate-freedom and range
membership, which is all the proofs need), `numbersToPlace` is 1 or 2,
and row position lists are duplicate-free lists of row indices. -/
def WFRand (o : RandSrc) : Prop :=
  ∀ c, c < 9 →
    ((o.colNums c).Nodup ∧ (∀ v ∈ o.colNums c, inRange c v)) ∧
    (1 ≤ o.colK c ∧ o.colK c ≤ 2) ∧
    ((o.rowPerm c).Nodup ∧ ∀ r ∈ o.rowPerm c, r < 3)

instance (o : RandSrc) : Decidable (WFRand o) := by
  unfold WFRand; infer_instance

/-- `Array(3).fill(null).map(() => Array(9).fill(null))`. -/
def emptyGrid : Grid :=
  List.replicate 3 (List.replicate 9 none)

/-- The initial placement loop body for one column: shuffle the
available numbers, choose 1-2 row positions, and write the first
shuffled numbers into those cells. -/
def placeColumn (o : RandSrc) (col : Nat) (g : Grid) : Grid :=
  let availableNumbers := o.colNums col
  let positions := (o.rowPerm col).take (o.colK col)
  positions.enum.foldl
    (fun g p =>
      if p.1 < availableNumbers.length then
        setCell g p.2 col (some (availableNumbers.getD p.1 0))
      else g)
    g

/-- The `for (let col = 0; col < 9; col++)` placement loop. -/
def fillColumns (o : RandSrc) (g : Grid) : Grid :=
  (List.range 9).foldl (fun g col => placeColumn o col g) g

/-- `ticket[row].filter(n => n !== null).length`. -/
def rowFilled (g : Grid) (row : Nat) : Nat :=
  ((g.getD row []).filter (fun n => n.isSome)).length

/-- `ticket[row].map((n, i) => n === null ? i : -1).filter(i => i !== -1)`:
the indices of the row's empty cells. -/
def emptyColsOf (g : Grid) (row : Nat) : List Nat :=
  (List.range (g.getD row []).length).filter
    (fun c => ((g.getD row []).getD c none).isNone)

/-- `ticket[row].map((n, i) => n !== null ? i : -1).filter(i => i !== -1)`:
the indices of the row's filled cells. -/
def filledColsOf (g : Grid) (row : Nat) : List Nat :=
  (List.range (g.getD row []).length).filter
    (fun c => ((g.getD row []).getD c none).isSome)

/-- The balancing pass's fresh-number pool for a column: the column's
range, minus everything already on the ticket
(`.filter(num => !ticket.flat().includes(num))`). -/
def availForCol (g : Grid) (col : Nat) : List Nat :=
  (rangeList col).filter (fun num => !(g.flatten.contains (some num)))

/-- One iteration of the "add more numbers" loop: pick an unused number
of the column's range at random and write it; if none remains, leave the
cell empty. -/
def addStep (o : RandSrc) (row : Nat) (emptyCols : List Nat) (g : Grid) (i : Nat) : Grid :=
  let col := emptyCols.getD i 0
  let avail := availForCol g col
  if 0 < avail.length then
    setCell g row col (some (avail.getD (o.addPick row i % avail.length) 0))
  else g

/-- `for (let i = 0; i < needed && i < emptyCols.length; i++)`: the
"add more numbers" loop (the empty-column list is computed once, before
the loop). -/
def addNumbers (o : RandSrc) (row needed : Nat) (g : Grid) : Grid :=
  let emptyCols := emptyColsOf g row
  (List.range (min needed emptyCols.length)).foldl (addStep o row emptyCols) g

/-- One iteration of the "remove excess numbers" loop: splice a random
entry out of the filled-column list and null that cell. -/
def removeStep (o : RandSrc) (row : Nat) (s : Grid × List Nat) (i : Nat) : Grid × List Nat :=
  let idx := o.removePick row i % s.2.length
  let col := s.2.getD idx 0
  (setCell s.1 row col none, s.2.eraseIdx idx)

/-- The per-row balancing pass: bring the row to exactly 5 numbers by
adding to empty columns or removing from random filled columns. -/
def balanceRow (o : RandSrc) (g : Grid) (row : Nat) : Grid :=
  let numbersInRow := rowFilled g row
  if numbersInRow < 5 then
    addNumbers o row (5 - numbersInRow) g
  else if 5 < numbersInRow then
    ((List.range (numbersInRow - 5)).foldl (removeStep o row) (g, filledColsOf g row)).1
  else g

/-- The whole generator: column placement pass, then the row balancing
pass over rows 0, 1, 2. This is the grid both `generateTambolaTicket`
and `generateTicket` return. -/
def generateTicketGrid (o : RandSrc) : Grid :=
  (List.range 3).foldl (balanceRow o) (fillColumns o emptyGrid)

/-- Number of filled cells in a column. -/
def colFilled (g : Grid) (col : Nat) : Nat :=
  ((List.range 3).filter (fun r => (cell g r col).isSome)).length

/-- A well-formed oracle: identity shuffles, one number per column,
positions in natural order, picks at index 0. -/
def plainRand : RandSrc :=
  { colNums := fun c => rangeList c
    colK := fun _ => 1
    rowPerm := fun _ => [0, 1, 2]
    addPick := fun _ _ => 0
    removePick := fun _ _ => 0 }

/-- A well-formed oracle on which the generator misbehaves: every column
first places exactly one number, in row 0; the row-0 balancing pass then
removes the cells of columns 5, 6, 7 and 8 (index 5 of the shrinking
filled-column list at each of the four steps), and the row-1 and row-2
passes refill only columns 0-4. -/
def skewRand : RandSrc :=
  { colNums := fun c => rangeList c
    colK := fun _ => 1
    rowPerm := fun _ => [0, 1, 2]
    addPick := fun _ _ => 0
    removePick := fun _ _ => 5 }

/-! ## Concrete data used in witnesses and counterexamples -/

/-- The mock ticket's grid wrapped as component ticket data, with every
number of the ticket marked. -/
def fullyMarkedTicket : TicketData :=
  { id := "ticket-1"
    numbers := getMockTicket "ticket-1"
    markedNumbers := {5, 23, 45, 67, 89, 12, 34, 56, 78, 8, 29, 41, 63, 85} }

/-- A claim state in which both full-house claims are already recorded. -/
def bothFullHousesClaimed : ClaimState :=
  { fastFive := false, firstRow := false, secondRow := false
    thirdRow := false, fullHouse := true, secondFullHouse := true }

/-- A claim state in which only first-row is recorded. -/
def firstRowClaimed : ClaimState :=
  { fastFive := false, firstRow := true, secondRow := false
    thirdRow := false, fullHouse := false, secondFullHouse := false }

/-- Component ticket data with a single marked number. -/
def singleMarkTicket : TicketData :=
  { id := "ticket-1", numbers := getMockTicket "ticket-1", markedNumbers := {5} }

/-- A concrete claim request. -/
def reqA : ClaimRequest :=
  { tournamentId := "t1", userId := "u1", ticketId := "k1"
    claimType := "fast-five", markedNumbers := [5, 23, 45, 67, 89], userToken := "tokA" }

/-- A second claim request with the same claim type and marked numbers
but different tournament, user and ticket ids. -/
def reqB : ClaimRequest :=
  { tournamentId := "t2", userId := "u2", ticketId := "k2"
    claimType := "fast-five", markedNumbers := [5, 23, 45, 67, 89], userToken := "tokB" }

/-! ## Basic grid lemmas -/

theorem cell_eq_getElem? (g : Grid) (row col : Nat) :
    cell g row col = (g[row]?.getD [])[col]?.getD none := by
  simp [cell, List.getD_eq_getElem?_getD]

theorem length_setCell (g : Grid) (row col : Nat) (v : Option Nat) :
    (setCell g row col v).length = g.length := by
  simp [setCell]

theorem shape_setCell {g : Grid} (h : Shape g) (row col : Nat) (v : Option Nat) :
    Shape (setCell g row col v) := by
  obtain ⟨h1, h2⟩ := h
  by_cases hlt : row < g.length
  · refine ⟨by simp [setCell, h1], ?_⟩
    intro r hr
    rcases List.mem_or_eq_of_mem_set hr with hmem | heq
    · exact h2 r hmem
    · subst heq
      rw [List.length_set]
      have hgrow : g.getD row [] = g[row] := by
        rw [List.getD_eq_getElem?_getD, List.getElem?_eq_getElem hlt]; rfl
      rw [hgrow]
      exact h2 _ (List.getElem_mem hlt)
  · rw [setCell, List.set_eq_of_length_le (by omega)]
    exact ⟨h1, h2⟩

theorem cell_setCell (g : Grid) (row col : Nat) (v : Option Nat) (row2 col2 : Nat) :
    cell (setCell g row col v) row2 col2 =
      if row2 = row ∧ col2 = col ∧ row < g.length ∧ col < (g.getD row []).length then v
      else cell g row2 col2 := by
  rw [cell_eq_getElem?, cell_eq_getElem?, setCell, List.getElem?_set]
  by_cases hr : row = row2
  · subst hr
    have hD : g[row]?.getD [] = List.getD g row [] :=
      (List.getD_eq_getElem?_getD g row []).symm
    by_cases hlt : row < g.length
    · rw [if_pos rfl, if_pos hlt]
      simp only [Option.getD_some]
      rw [List.getElem?_set]
      by_cases hc : col = col2
      · subst hc
        by_cases hcl : col < (List.getD g row []).length
        · have hgr : List.getD g row [] = g[row] := by
            rw [List.getD_eq_getElem?_getD, List.getElem?_eq_getElem hlt]; rfl
          rw [hgr] at hcl
          simp [hlt, hcl]
        · rw [if_pos rfl, if_neg hcl, if_neg (fun hh => hcl hh.2.2.2), hD,
            List.getElem?_eq_none (Nat.le_of_not_lt hcl)]
      · rw [if_neg hc, if_neg (fun hh => hc hh.2.1.symm), hD]
    · have hnone : g[row]? = none := List.getElem?_eq_none (Nat.le_of_not_lt hlt)
      rw [if_pos rfl, if_neg hlt, if_neg (fun hh => hlt hh.2.2.1), hnone]
  · rw [if_neg hr, if_neg (fun hh => hr hh.1.symm)]

theorem cell_setCell_self {g : Grid} (h : Shape g) {row col : Nat}
    (hrow : row < 3) (hcol : col < 9) (v : Option Nat) :
    cell (setCell g row col v) row col = v := by
  obtain ⟨h1, h2⟩ := h
  have hrl : row < g.length := by omega
  have hgrow : g.getD row [] = g[row] := by
    rw [List.getD_eq_getElem?_getD, List.getElem?_eq_getElem hrl]; rfl
  have hclen : col < (g.getD row []).length := by
    rw [hgrow, h2 _ (List.getElem_mem hrl)]; omega
  rw [cell_setCell, if_pos ⟨rfl, rfl, hrl, hclen⟩]

theorem cell_setCell_ne (g : Grid) {row col row2 col2 : Nat}
    (h : row2 ≠ row ∨ col2 ≠ col) (v : Option Nat) :
    cell (setCell g row col v) row2 col2 = cell g row2 col2 := by
  rw [cell_setCell, if_neg (by tauto)]

theorem cell_setCell_cases (g : Grid) (row col row2 col2 : Nat) (v : Option Nat) :
    cell (setCell g row col v) row2 col2 = cell g row2 col2 ∨
      cell (setCell g row col v) row2 col2 = v := by
  rw [cell_setCell]
  split
  · exact Or.inr rfl
  · exact Or.inl rfl

/-! ## Generator invariants -/

/-- Every filled cell's number lies in its column's designated range. -/
def RangeOK (g : Grid) : Prop :=
  ∀ row, row < 3 → ∀ col, col < 9 → ∀ v, cell g row col = some v → inRange col v

/-- No number occupies two different cells of the grid. -/
def NoRepeat (g : Grid) : Prop :=
  ∀ r1, r1 < 3 → ∀ c1, c1 < 9 → ∀ r2, r2 < 3 → ∀ c2, c2 < 9 → ∀ v,
    cell g r1 c1 = some v → cell g r2 c2 = some v → r1 = r2 ∧ c1 = c2

/-- The invariant carried through the generator. -/
def Inv (g : Grid) : Prop := Shape g ∧ RangeOK g ∧ NoRepeat g

theorem ranges_disjoint : ∀ c1, c1 < 9 → ∀ c2, c2 < 9 → ∀ v,
    inRange c1 v → inRange c2 v → c1 = c2 := by
  intro c1 h1 c2 h2 v hv1 hv2
  interval_cases c1 <;> interval_cases c2 <;>
    simp_all [inRange, ranges] <;> omega

theorem mem_flatten_iff_cell {g : Grid} (h : Shape g) (v : Nat) :
    some v ∈ g.flatten ↔ ∃ row, row < 3 ∧ ∃ col, col < 9 ∧ cell g row col = some v := by
  obtain ⟨h1, h2⟩ := h
  rw [List.mem_flatten]
  constructor
  · rintro ⟨l, hl, hvl⟩
    obtain ⟨row, hrow, hget⟩ := List.mem_iff_getElem.mp hl
    obtain ⟨col, hcol, hgetc⟩ := List.mem_iff_getElem.mp hvl
    refine ⟨row, by omega, col, ?_, ?_⟩
    · have h9 : l.length = 9 := h2 l hl
      omega
    · rw [cell_eq_getElem?, List.getElem?_eq_getElem hrow, hget]
      simp only [Option.getD_some]
      rw [List.getElem?_eq_getElem hcol, hgetc]
      rfl
  · rintro ⟨row, hrow, col, hcol, hcell⟩
    have hrl : row < g.length := by omega
    refine ⟨g[row], List.getElem_mem hrl, ?_⟩
    rw [cell_eq_getElem?, List.getElem?_eq_getElem hrl] at hcell
    simp only [Option.getD_some] at hcell
    rcases hq : g[row][col]? with _ | w
    · rw [hq] at hcell; simp at hcell
    · rw [hq] at hcell
      simp only [Option.getD_some] at hcell
      rw [hcell] at hq
      exact List.getElem?_mem hq

theorem fresh_of_not_flatten {g : Grid} (h : Shape g) {v : Nat}
    (hv : some v ∉ g.flatten) :
    ∀ row, row < 3 → ∀ col, col < 9 → cell g row col ≠ some v := by
  intro row hrow col hcol hcell
  exact hv ((mem_flatten_iff_cell h v).mpr ⟨row, hrow, col, hcol, hcell⟩)

theorem inv_setCell_fresh {g : Grid} (hInv : Inv g) {row col v : Nat}
    (hrow : row < 3) (hcol : col < 9) (hin : inRange col v)
    (hfresh : ∀ r2, r2 < 3 → ∀ c2, c2 < 9 → cell g r2 c2 ≠ some v) :
    Inv (setCell g row col (some v)) := by
  obtain ⟨hS, hR, hN⟩ := hInv
  refine ⟨shape_setCell hS _ _ _, ?_, ?_⟩
  · intro r hr3 c hc9 w hcw
    rw [cell_setCell] at hcw
    split at hcw
    · rename_i hcond
      obtain ⟨hr, hc, _, _⟩ := hcond
      cases hcw
      rw [hc]
      exact hin
    · exact hR r hr3 c hc9 w hcw
  · intro r1 hr1 c1 hc1 r2 hr2 c2 hc2 w hw1 hw2
    rw [cell_setCell] at hw1 hw2
    split at hw1 <;> split at hw2
    · rename_i hcond1 hcond2
      exact ⟨hcond1.1.trans hcond2.1.symm, hcond1.2.1.trans hcond2.2.1.symm⟩
    · cases hw1
      exact absurd hw2 (hfresh r2 hr2 c2 hc2)
    · cases hw2
      exact absurd hw1 (hfresh r1 hr1 c1 hc1)
    · exact hN r1 hr1 c1 hc1 r2 hr2 c2 hc2 w hw1 hw2

theorem inv_setCell_none {g : Grid} (hInv : Inv g) (row col : Nat) :
    Inv (setCell g row col none) := by
  obtain ⟨hS, hR, hN⟩ := hInv
  refine ⟨shape_setCell hS _ _ _, ?_, ?_⟩
  · intro r hr3 c hc9 w hcw
    rw [cell_setCell] at hcw
    split at hcw
    · cases hcw
    · exact hR r hr3 c hc9 w hcw
  · intro r1 hr1 c1 hc1 r2 hr2 c2 hc2 w hw1 hw2
    rw [cell_setCell] at hw1 hw2
    split at hw1
    · cases hw1
    · split at hw2
      · cases hw2
      · exact hN r1 hr1 c1 hc1 r2 hr2 c2 hc2 w hw1 hw2

theorem cell_emptyGrid (row col : Nat) : cell emptyGrid row col = none := by
  rw [cell_eq_getElem?]
  rcases hq : (emptyGrid : Grid)[row]? with _ | l
  · rfl
  · have hl : l = List.replicate 9 none := by
      have hlen : row < (emptyGrid : Grid).length := by
        by_contra hcon
        rw [List.getElem?_eq_none (Nat.le_of_not_lt hcon)] at hq
        cases hq

      rw [List.getElem?_eq_getElem hlen] at hq
      have := List.getElem_replicate (n := 3) (a := (List.replicate 9 (none : Option Nat))) (h := hlen)
      rw [show (emptyGrid : Grid)[row] = List.replicate 9 none from this] at hq
      cases hq
      rfl
    subst hl
    simp only [Option.getD_some]
    rcases hc : (List.replicate 9 (none : Option Nat))[col]? with _ | w
    · rfl
    · have := List.getElem?_mem hc
      rw [List.eq_of_mem_replicate this]
      rfl

theorem inv_emptyGrid : Inv emptyGrid := by
  refine ⟨by decide, ?_, ?_⟩
  · intro row _ col _ v hcell
    rw [cell_emptyGrid] at hcell
    cases hcell
  · intro r1 _ c1 _ r2 _ c2 _ v h1 _
    rw [cell_emptyGrid] at h1
    cases h1

/-! ## Phase A: the column placement pass -/

/-- Column `col` holds no number yet. -/
def ColEmpty (g : Grid) (col : Nat) : Prop :=
  ∀ row, row < 3 → cell g row col = none

/-- The loop body of `placeColumn`, abstracted over the shuffled number
list. -/
def placeBody (nums : List Nat) (col : Nat) (g : Grid) (p : Nat × Nat) : Grid :=
  if p.1 < nums.length then setCell g p.2 col (some (nums.getD p.1 0)) else g

theorem placeColumn_eq_fold (o : RandSrc) (col : Nat) (g : Grid) :
    placeColumn o col g =
      (((o.rowPerm col).take (o.colK col)).enum).foldl
        (placeBody (o.colNums col) col) g := rfl

theorem cell_placeBody_fold_ne (nums : List Nat) (col : Nat) {c2 : Nat}
    (h : c2 ≠ col) (r2 : Nat) :
    ∀ (ps : List (Nat × Nat)) (g : Grid),
      cell (ps.foldl (placeBody nums col) g) r2 c2 = cell g r2 c2
  | [], _ => rfl
  | p :: ps, g => by
    rw [List.foldl_cons, cell_placeBody_fold_ne nums col h r2 ps _]
    unfold placeBody
    by_cases hp : p.1 < nums.length
    · rw [if_pos hp, cell_setCell_ne g (Or.inr h)]
    · rw [if_neg hp]

theorem cell_placeColumn_ne (o : RandSrc) (col : Nat) (g : Grid) {c2 : Nat}
    (h : c2 ≠ col) (r2 : Nat) :
    cell (placeColumn o col g) r2 c2 = cell g r2 c2 := by
  rw [placeColumn_eq_fold]
  exact cell_placeBody_fold_ne (o.colNums col) col h r2 _ g

theorem inv_placeBody_fold {col : Nat} (hcol : col < 9) {nums : List Nat}
    (hnd : nums.Nodup) (hin : ∀ v ∈ nums, inRange col v) :
    ∀ (ps : List (Nat × Nat)) (g : Grid), Inv g →
      (ps.map Prod.fst).Nodup →
      (∀ p ∈ ps, p.1 < nums.length →
        ∀ r2, r2 < 3 → cell g r2 col ≠ some (nums.getD p.1 0)) →
      (∀ p ∈ ps, p.2 < 3) →
      Inv (ps.foldl (placeBody nums col) g)
  | [], g, hInv, _, _, _ => hInv
  | p :: ps, g, hInv, hfst, hfresh, h3 => by
    rw [List.foldl_cons]
    by_cases hp : p.1 < nums.length
    · have hval : nums.getD p.1 0 ∈ nums := by
        rw [List.getD_eq_getElem _ _ hp]
        exact List.getElem_mem hp
      have hvin : inRange col (nums.getD p.1 0) := hin _ hval
      have hg2 : Inv (placeBody nums col g p) := by
        unfold placeBody
        rw [if_pos hp]
        apply inv_setCell_fresh hInv (h3 p (List.mem_cons_self p ps)) hcol hvin
        intro r2 hr2 c2 hc2 hcell
        by_cases hc : c2 = col
        · subst hc
          exact hfresh p (List.mem_cons_self p ps) hp r2 hr2 hcell
        · have := hInv.2.1 r2 hr2 c2 hc2 _ hcell
          exact hc (ranges_disjoint c2 hc2 col hcol _ this hvin)
      apply inv_placeBody_fold hcol hnd hin ps _ hg2
      · exact (List.nodup_cons.mp hfst).2
      · intro q hq hqlt r2 hr2 hcell
        unfold placeBody at hcell
        rw [if_pos hp] at hcell
        rw [cell_setCell] at hcell
        split at hcell
        · rename_i hcond
          have hne : p.1 ≠ q.1 := by
            intro heq
            exact (List.nodup_cons.mp hfst).1 (heq ▸ List.mem_map_of_mem Prod.fst hq)
          rw [List.getD_eq_getElem _ _ hp, List.getD_eq_getElem _ _ hqlt] at hcell
          injection hcell with hcell
          exact hne (hnd.getElem_inj_iff.mp hcell)
        · exact hfresh q (List.mem_cons_of_mem p hq) hqlt r2 hr2 hcell
      · intro q hq
        exact h3 q (List.mem_cons_of_mem p hq)
    · have hg2 : placeBody nums col g p = g := by
        unfold placeBody
        rw [if_neg hp]
      rw [hg2]
      apply inv_placeBody_fold hcol hnd hin ps g hInv (List.nodup_cons.mp hfst).2
      · intro q hq hqlt r2 hr2
        exact hfresh q (List.mem_cons_of_mem p hq) hqlt r2 hr2
      · intro q hq
        exact h3 q (List.mem_cons_of_mem p hq)

theorem inv_placeColumn {o : RandSrc} (hWF : WFRand o) {col : Nat} (hcol : col < 9)
    {g : Grid} (hInv : Inv g) (hempty : ColEmpty g col) :
    Inv (placeColumn o col g) := by
  obtain ⟨⟨hnd, hin⟩, _, ⟨hpnd, hp3⟩⟩ := hWF col hcol
  rw [placeColumn_eq_fold]
  apply inv_placeBody_fold hcol hnd hin _ g hInv
  · rw [List.enum_map_fst]
    exact List.nodup_range _
  · intro p _ _ r2 hr2 hcell
    rw [hempty r2 hr2] at hcell
    cases hcell
  · intro p hp
    exact hp3 p.2 (List.mem_of_mem_take (List.snd_mem_of_mem_enum hp))

theorem inv_fill_fold {o : RandSrc} (hWF : WFRand o) :
    ∀ (ls : List Nat) (g : Grid), Inv g → ls.Nodup → (∀ c ∈ ls, c < 9) →
      (∀ c ∈ ls, ColEmpty g c) →
      Inv (ls.foldl (fun g col => placeColumn o col g) g)
  | [], g, hInv, _, _, _ => hInv
  | c :: ls, g, hInv, hnd, h9, hem => by
    rw [List.foldl_cons]
    apply inv_fill_fold hWF ls _ ?_ (List.nodup_cons.mp hnd).2 ?_ ?_
    · exact inv_placeColumn hWF (h9 c (List.mem_cons_self c ls)) hInv
        (hem c (List.mem_cons_self c ls))
    · intro c2 hc2
      exact h9 c2 (List.mem_cons_of_mem c hc2)
    · intro c2 hc2 row hrow
      have hne : c2 ≠ c := by
        intro heq
        exact (List.nodup_cons.mp hnd).1 (heq ▸ hc2)
      rw [cell_placeColumn_ne o c g hne row]
      exact hem c2 (List.mem_cons_of_mem c hc2) row hrow

theorem inv_fillColumns {o : RandSrc} (hWF : WFRand o) :
    Inv (fillColumns o emptyGrid) := by
  unfold fillColumns
  apply inv_fill_fold hWF (List.range 9) emptyGrid inv_emptyGrid (List.nodup_range 9)
  · intro c hc
    exact List.mem_range.mp hc
  · intro c _ row _
    exact cell_emptyGrid row c

/-! ## Counting lemmas for the balancing pass -/

theorem length_filter_set_pos {α : Type} (p : α → Bool) (a : α) (hpa : p a = true) :
    ∀ (l : List α) (i : Nat) (h : i < l.length), p (l.get ⟨i, h⟩) = false →
      ((l.set i a).filter p).length = (l.filter p).length + 1
  | b :: t, 0, _, hb => by
    have hpb : p b = false := hb
    simp [List.set_cons_zero, List.filter_cons, hpa, hpb]
  | b :: t, i + 1, h, hb => by
    have hb2 : p (t.get ⟨i, by simpa using Nat.lt_of_succ_lt_succ h⟩) = false := hb
    have ih := length_filter_set_pos p a hpa t i (by simpa using Nat.lt_of_succ_lt_succ h) hb2
    rw [List.set_cons_succ]
    cases hpb : p b <;> simp [List.filter_cons, hpb, ih] <;> omega

theorem length_filter_set_neg {α : Type} (p : α → Bool) (a : α) (hpa : p a = false) :
    ∀ (l : List α) (i : Nat) (h : i < l.length), p (l.get ⟨i, h⟩) = true →
      ((l.set i a).filter p).length + 1 = (l.filter p).length
  | b :: t, 0, _, hb => by
    have hpb : p b = true := hb
    simp [List.set_cons_zero, List.filter_cons, hpa, hpb]
  | b :: t, i + 1, h, hb => by
    have hb2 : p (t.get ⟨i, by simpa using Nat.lt_of_succ_lt_succ h⟩) = true := hb
    have ih := length_filter_set_neg p a hpa t i (by simpa using Nat.lt_of_succ_lt_succ h) hb2
    rw [List.set_cons_succ]
    cases hpb : p b <;> simp [List.filter_cons, hpb, ih] <;> omega

theorem length_filter_not_add {α : Type} (p : α → Bool) :
    ∀ l : List α, (l.filter (fun a => !(p a))).length + (l.filter p).length = l.length
  | [] => rfl
  | b :: t => by
    have ih := length_filter_not_add p t
    cases hpb : p b <;> simp [List.filter_cons, hpb] <;> omega

theorem filter_range_getD_length (p : Option Nat → Bool) :
    ∀ l : List (Option Nat),
      ((List.range l.length).filter (fun c => p (l.getD c none))).length =
        (l.filter p).length
  | [] => rfl
  | a :: t => by
    have ih := filter_range_getD_length p t
    rw [List.length_cons, List.range_succ_eq_map, List.filter_cons]
    have hcomp : List.filter (fun c => p ((a :: t).getD c none)) (List.map Nat.succ (List.range t.length)) =
        List.map Nat.succ (List.filter ((fun c => p ((a :: t).getD c none)) ∘ Nat.succ) (List.range t.length)) :=
      List.filter_map Nat.succ (List.range t.length)
    have hfun : ((fun c => p ((a :: t).getD c none)) ∘ Nat.succ) =
        (fun c => p (t.getD c none)) := by
      funext c
      simp [Function.comp, List.getD_cons_succ]
    rw [hfun] at hcomp
    simp only [List.getD_cons_zero]
    simp only [hcomp]
    simp only [List.getD_eq_getElem?_getD] at ih
    by_cases hpa : p a = true <;> simp [hpa, List.filter_cons, ih]

theorem length_filter_isNone_add (l : List (Option Nat)) :
    (l.filter (fun n => n.isNone)).length + (l.filter (fun n => n.isSome)).length = l.length := by
  have h := length_filter_not_add (fun n : Option Nat => n.isSome) l
  have hfun : (fun a : Option Nat => !(a.isSome)) = (fun a : Option Nat => a.isNone) := by
    funext a
    cases a <;> rfl
  rw [hfun] at h
  exact h

/-! ## Row bookkeeping lemmas -/

theorem row_length {g : Grid} (hS : Shape g) {row : Nat} (hrow : row < 3) :
    (g.getD row []).length = 9 := by
  obtain ⟨h1, h2⟩ := hS
  have hrl : row < g.length := by omega
  have hgrow : g.getD row [] = g[row] := by
    rw [List.getD_eq_getElem?_getD, List.getElem?_eq_getElem hrl]; rfl
  rw [hgrow]
  exact h2 _ (List.getElem_mem hrl)

theorem getD_setCell_self {g : Grid} {row : Nat} (hrow : row < g.length) (col : Nat)
    (v : Option Nat) :
    (setCell g row col v).getD row [] = (g.getD row []).set col v := by
  rw [setCell, List.getD_eq_getElem?_getD, List.getElem?_set_self hrow]
  rfl

theorem getD_setCell_ne (g : Grid) {row row2 : Nat} (h : row2 ≠ row) (col : Nat)
    (v : Option Nat) :
    (setCell g row col v).getD row2 [] = g.getD row2 [] := by
  rw [setCell, List.getD_eq_getElem?_getD, List.getElem?_set_ne (fun hh => h hh.symm),
    List.getD_eq_getElem?_getD]

theorem rowFilled_setCell_some {g : Grid} (hS : Shape g) {row col : Nat}
    (hrow : row < 3) (hcol : col < 9) (hnone : cell g row col = none) (v : Nat) :
    rowFilled (setCell g row col (some v)) row = rowFilled g row + 1 := by
  unfold rowFilled
  rw [getD_setCell_self (by have h3 := hS.1; omega : row < g.length)]
  have hcl : col < (g.getD row []).length := by rw [row_length hS hrow]; omega
  apply length_filter_set_pos _ _ rfl _ col hcl
  have hcell : (g.getD row []).get ⟨col, hcl⟩ = none := by
    have heq : cell g row col = (g.getD row []).get ⟨col, hcl⟩ := by
      unfold cell
      rw [List.getD_eq_getElem _ none hcl]
      rfl
    rw [← heq]
    exact hnone
  rw [hcell]
  rfl

theorem rowFilled_setCell_none {g : Grid} (hS : Shape g) {row col : Nat}
    (hrow : row < 3) (hcol : col < 9) (hsome : cell g row col ≠ none) :
    rowFilled (setCell g row col none) row + 1 = rowFilled g row := by
  unfold rowFilled
  rw [getD_setCell_self (by have h3 := hS.1; omega : row < g.length)]
  have hcl : col < (g.getD row []).length := by rw [row_length hS hrow]; omega
  apply length_filter_set_neg _ _ rfl _ col hcl
  have heq : cell g row col = (g.getD row []).get ⟨col, hcl⟩ := by
    unfold cell
    rw [List.getD_eq_getElem _ none hcl]
    rfl
  rw [heq] at hsome
  exact Option.ne_none_iff_isSome.mp hsome

theorem rowFilled_setCell_other {g : Grid} {row row2 : Nat} (h : row2 ≠ row)
    (col : Nat) (v : Option Nat) :
    rowFilled (setCell g row col v) row2 = rowFilled g row2 := by
  unfold rowFilled
  rw [getD_setCell_ne g h col v]

theorem mem_emptyColsOf {g : Grid} {row c : Nat} :
    c ∈ emptyColsOf g row ↔ c < (g.getD row []).length ∧ cell g row c = none := by
  unfold emptyColsOf cell
  rw [List.mem_filter, List.mem_range, Option.isNone_iff_eq_none]

theorem mem_filledColsOf {g : Grid} {row c : Nat} :
    c ∈ filledColsOf g row ↔ c < (g.getD row []).length ∧ cell g row c ≠ none := by
  unfold filledColsOf cell
  rw [List.mem_filter, List.mem_range, ← Option.ne_none_iff_isSome]

theorem nodup_emptyColsOf (g : Grid) (row : Nat) : (emptyColsOf g row).Nodup :=
  (List.nodup_range _).filter _

theorem nodup_filledColsOf (g : Grid) (row : Nat) : (filledColsOf g row).Nodup :=
  (List.nodup_range _).filter _

theorem length_filledColsOf (g : Grid) (row : Nat) :
    (filledColsOf g row).length = rowFilled g row :=
  filter_range_getD_length _ (g.getD row [])

theorem length_emptyColsOf (g : Grid) (row : Nat) :
    (emptyColsOf g row).length + rowFilled g row = (g.getD row []).length := by
  have h1 : (emptyColsOf g row).length =
      ((g.getD row []).filter (fun n => n.isNone)).length :=
    filter_range_getD_length _ (g.getD row [])
  rw [h1]
  unfold rowFilled
  exact length_filter_isNone_add (g.getD row [])

/-! ## The balancing pass's number pool -/

theorem nodup_rangeList (col : Nat) : (rangeList col).Nodup :=
  List.nodup_range' _ _

theorem mem_rangeList_inRange {col : Nat} (hcol : col < 9) {v : Nat} :
    v ∈ rangeList col ↔ inRange col v := by
  unfold rangeList inRange
  rw [List.mem_range'_1]
  have hle : (ranges.getD col (0, 0)).1 ≤ (ranges.getD col (0, 0)).2 := by
    interval_cases col <;> decide
  omega

theorem mem_availForCol {g : Grid} {col v : Nat} :
    v ∈ availForCol g col ↔ v ∈ rangeList col ∧ some v ∉ g.flatten := by
  unfold availForCol
  rw [List.mem_filter]
  simp [List.elem_iff]

theorem rangeList_length {col : Nat} (hcol : col < 9) : 9 ≤ (rangeList col).length := by
  unfold rangeList
  rw [List.length_range']
  interval_cases col <;> decide

theorem availForCol_pos {g : Grid} (hInv : Inv g) {col : Nat} (hcol : col < 9) :
    0 < (availForCol g col).length := by
  obtain ⟨hS, hR, _⟩ := hInv
  have hsplit : (availForCol g col).length +
      ((rangeList col).filter (fun v => g.flatten.contains (some v))).length =
      (rangeList col).length :=
    length_filter_not_add (fun v => g.flatten.contains (some v)) (rangeList col)
  have hbadcard :
      ((rangeList col).filter (fun v => g.flatten.contains (some v))).length ≤ 3 := by
    have hsub : ∀ v ∈ (rangeList col).filter (fun v => g.flatten.contains (some v)),
        v ∈ (List.range 3).filterMap (fun r => cell g r col) := by
      intro v hv
      rw [List.mem_filter] at hv
      obtain ⟨hvL, hvc⟩ := hv
      have hvmem : some v ∈ g.flatten := List.elem_iff.mp hvc
      obtain ⟨r, hr, c, hc, hcell⟩ := (mem_flatten_iff_cell hS v).mp hvmem
      have hvin : inRange col v := (mem_rangeList_inRange hcol).mp hvL
      have hcin : inRange c v := hR r hr c hc v hcell
      have hccol : c = col := ranges_disjoint c hc col hcol v hcin hvin
      subst hccol
      rw [List.mem_filterMap]
      exact ⟨r, List.mem_range.mpr hr, hcell⟩
    have hnd : ((rangeList col).filter (fun v => g.flatten.contains (some v))).Nodup :=
      (nodup_rangeList col).filter _
    calc ((rangeList col).filter (fun v => g.flatten.contains (some v))).length
        = ((rangeList col).filter (fun v => g.flatten.contains (some v))).toFinset.card :=
          (List.toFinset_card_of_nodup hnd).symm
      _ ≤ ((List.range 3).filterMap (fun r => cell g r col)).toFinset.card :=
          Finset.card_le_card (fun v hv =>
            List.mem_toFinset.mpr (hsub v (List.mem_toFinset.mp hv)))
      _ ≤ ((List.range 3).filterMap (fun r => cell g r col)).length :=
          List.toFinset_card_le _
      _ ≤ (List.range 3).length := List.length_filterMap_le _ _
      _ = 3 := by simp
  have h9 : 9 ≤ (rangeList col).length := rangeList_length hcol
  omega

/-! ## Phase B: the row balancing pass -/

theorem addStep_eq (o : RandSrc) (row : Nat) (emptyCols : List Nat) (g : Grid) (i : Nat) :
    addStep o row emptyCols g i =
      if 0 < (availForCol g (emptyCols.getD i 0)).length then
        setCell g row (emptyCols.getD i 0)
          (some ((availForCol g (emptyCols.getD i 0)).getD
            (o.addPick row i % (availForCol g (emptyCols.getD i 0)).length) 0))
      else g := rfl

theorem addNumbers_eq (o : RandSrc) (row needed : Nat) (g : Grid) :
    addNumbers o row needed g =
      (List.range (min needed (emptyColsOf g row).length)).foldl
        (addStep o row (emptyColsOf g row)) g := rfl

theorem removeStep_eq (o : RandSrc) (row : Nat) (s : Grid × List Nat) (i : Nat) :
    removeStep o row s i =
      (setCell s.1 row (s.2.getD (o.removePick row i % s.2.length) 0) none,
        s.2.eraseIdx (o.removePick row i % s.2.length)) := rfl

theorem balanceRow_eq (o : RandSrc) (g : Grid) (row : Nat) :
    balanceRow o g row =
      if rowFilled g row < 5 then addNumbers o row (5 - rowFilled g row) g
      else if 5 < rowFilled g row then
        ((List.range (rowFilled g row - 5)).foldl (removeStep o row)
          (g, filledColsOf g row)).1
      else g := rfl

theorem add_fold_spec {o : RandSrc} {row : Nat} (hrow : row < 3) (emptyCols : List Nat)
    (hnd : emptyCols.Nodup) (h9 : ∀ c ∈ emptyCols, c < 9) :
    ∀ (n : Nat) (g : Grid), Inv g →
      (∀ j, j < emptyCols.length → cell g row (emptyCols.getD j 0) = none) →
      n ≤ emptyCols.length →
      Inv ((List.range n).foldl (addStep o row emptyCols) g) ∧
      rowFilled ((List.range n).foldl (addStep o row emptyCols) g) row
        = rowFilled g row + n ∧
      (∀ j, n ≤ j → j < emptyCols.length →
        cell ((List.range n).foldl (addStep o row emptyCols) g) row
          (emptyCols.getD j 0) = none) ∧
      (∀ r2, r2 ≠ row →
        ((List.range n).foldl (addStep o row emptyCols) g).getD r2 [] = g.getD r2 [])
  | 0, g, hInv, hcells, _ =>
    ⟨hInv, by simp, fun j _ hj => by simpa using hcells j hj, fun _ _ => rfl⟩
  | n + 1, g, hInv, hcells, hle => by
    obtain ⟨ih1, ih2, ih3, ih4⟩ :=
      add_fold_spec hrow emptyCols hnd h9 n g hInv hcells (by omega)
    have hstep : (List.range (n + 1)).foldl (addStep o row emptyCols) g =
        addStep o row emptyCols
          ((List.range n).foldl (addStep o row emptyCols) g) n := by
      rw [List.range_succ, List.foldl_append]
      rfl
    set gn := (List.range n).foldl (addStep o row emptyCols) g with hgn
    have hn : n < emptyCols.length := by omega
    have hmem : emptyCols.getD n 0 ∈ emptyCols := by
      rw [List.getD_eq_getElem _ _ hn]
      exact List.getElem_mem hn
    have hcol9 : emptyCols.getD n 0 < 9 := h9 _ hmem
    have hcellnone : cell gn row (emptyCols.getD n 0) = none := ih3 n le_rfl hn
    have hpos : 0 < (availForCol gn (emptyCols.getD n 0)).length :=
      availForCol_pos ih1 hcol9
    have hidx : o.addPick row n % (availForCol gn (emptyCols.getD n 0)).length <
        (availForCol gn (emptyCols.getD n 0)).length := Nat.mod_lt _ hpos
    have hv : (availForCol gn (emptyCols.getD n 0)).getD
        (o.addPick row n % (availForCol gn (emptyCols.getD n 0)).length) 0 ∈
        availForCol gn (emptyCols.getD n 0) := by
      rw [List.getD_eq_getElem _ _ hidx]
      exact List.getElem_mem hidx
    obtain ⟨hvrange, hvnot⟩ := mem_availForCol.mp hv
    have hvin : inRange (emptyCols.getD n 0)
        ((availForCol gn (emptyCols.getD n 0)).getD
          (o.addPick row n % (availForCol gn (emptyCols.getD n 0)).length) 0) :=
      (mem_rangeList_inRange hcol9).mp hvrange
    rw [hstep, addStep_eq, if_pos hpos]
    refine ⟨?_, ?_, ?_, ?_⟩
    · exact inv_setCell_fresh ih1 hrow hcol9 hvin
        (fresh_of_not_flatten ih1.1 hvnot)
    · rw [rowFilled_setCell_some ih1.1 hrow hcol9 hcellnone, ih2]
      omega
    · intro j hj1 hj2
      have hjn : j ≠ n := by omega
      have hne : emptyCols.getD j 0 ≠ emptyCols.getD n 0 := by
        rw [List.getD_eq_getElem _ _ hj2, List.getD_eq_getElem _ _ hn]
        intro heq
        exact hjn (hnd.getElem_inj_iff.mp heq)
      rw [cell_setCell_ne gn (Or.inr hne)]
      exact ih3 j (by omega) hj2
    · intro r2 hr2
      rw [getD_setCell_ne gn hr2]
      exact ih4 r2 hr2

theorem remove_fold_spec {o : RandSrc} {row : Nat} (hrow : row < 3) :
    ∀ (n : Nat) (g : Grid) (fcols : List Nat), Inv g → fcols.Nodup →
      (∀ c ∈ fcols, c < 9 ∧ cell g row c ≠ none) →
      n ≤ fcols.length →
      Inv ((List.range n).foldl (removeStep o row) (g, fcols)).1 ∧
      rowFilled ((List.range n).foldl (removeStep o row) (g, fcols)).1 row + n
        = rowFilled g row ∧
      ((List.range n).foldl (removeStep o row) (g, fcols)).2.Nodup ∧
      (∀ c ∈ ((List.range n).foldl (removeStep o row) (g, fcols)).2,
        c < 9 ∧ cell ((List.range n).foldl (removeStep o row) (g, fcols)).1 row c ≠ none) ∧
      ((List.range n).foldl (removeStep o row) (g, fcols)).2.length + n = fcols.length ∧
      (∀ r2, r2 ≠ row →
        ((List.range n).foldl (removeStep o row) (g, fcols)).1.getD r2 [] = g.getD r2 [])
  | 0, g, fcols, hInv, hnd, hmem, _ =>
    ⟨hInv, by simp, hnd, fun c hc => hmem c hc, by simp, fun _ _ => rfl⟩
  | n + 1, g, fcols, hInv, hnd, hmem, hle => by
    obtain ⟨ih1, ih2, ih3, ih4, ih5, ih6⟩ :=
      remove_fold_spec hrow n g fcols hInv hnd hmem (by omega)
    have hstep : (List.range (n + 1)).foldl (removeStep o row) (g, fcols) =
        removeStep o row ((List.range n).foldl (removeStep o row) (g, fcols)) n := by
      rw [List.range_succ, List.foldl_append]
      rfl
    set sn := (List.range n).foldl (removeStep o row) (g, fcols) with hsn
    have hlen : 0 < sn.2.length := by omega
    have hidx : o.removePick row n % sn.2.length < sn.2.length := Nat.mod_lt _ hlen
    have hcmem : sn.2.getD (o.removePick row n % sn.2.length) 0 ∈ sn.2 := by
      rw [List.getD_eq_getElem _ _ hidx]
      exact List.getElem_mem hidx
    obtain ⟨hc9, hcne⟩ := ih4 _ hcmem
    rw [hstep, removeStep_eq]
    dsimp only
    refine ⟨?_, ?_, ?_, ?_, ?_, ?_⟩
    · exact inv_setCell_none ih1 row _
    · have := rowFilled_setCell_none ih1.1 hrow hc9 hcne
      omega
    · exact ih3.eraseIdx _
    · intro c hc
      have hcs : c ∈ sn.2 := List.mem_of_mem_eraseIdx hc
      refine ⟨(ih4 c hcs).1, ?_⟩
      have hne : c ≠ sn.2.getD (o.removePick row n % sn.2.length) 0 := by
        intro heq
        obtain ⟨i, hi, hine, hieq⟩ := List.mem_eraseIdx_iff_getElem.mp hc
        rw [List.getD_eq_getElem _ _ hidx] at heq
        rw [heq] at hieq
        exact hine (ih3.getElem_inj_iff.mp hieq)
      rw [cell_setCell_ne sn.1 (Or.inr hne)]
      exact (ih4 c hcs).2
    · rw [List.length_eraseIdx, if_pos hidx]
      omega
    · intro r2 hr2
      rw [getD_setCell_ne sn.1 hr2]
      exact ih6 r2 hr2

theorem balanceRow_spec {o : RandSrc} {g : Grid} (hInv : Inv g) {row : Nat}
    (hrow : row < 3) :
    Inv (balanceRow o g row) ∧ rowFilled (balanceRow o g row) row = 5 ∧
      (∀ r2, r2 ≠ row → (balanceRow o g row).getD r2 [] = g.getD r2 []) := by
  rw [balanceRow_eq]
  by_cases h5 : rowFilled g row < 5
  · rw [if_pos h5, addNumbers_eq]
    have hlen : (emptyColsOf g row).length + rowFilled g row = 9 := by
      have h := length_emptyColsOf g row
      rw [row_length hInv.1 hrow] at h
      exact h
    have hminEq : min (5 - rowFilled g row) (emptyColsOf g row).length
        = 5 - rowFilled g row := by omega
    rw [hminEq]
    obtain ⟨h1, h2, _, h4⟩ := add_fold_spec hrow (emptyColsOf g row)
      (nodup_emptyColsOf g row)
      (fun c hc => by
        have := (mem_emptyColsOf.mp hc).1
        rw [row_length hInv.1 hrow] at this
        exact this)
      (5 - rowFilled g row) g hInv
      (fun j hj => by
        have hmem : (emptyColsOf g row).getD j 0 ∈ emptyColsOf g row := by
          rw [List.getD_eq_getElem _ _ hj]
          exact List.getElem_mem hj
        exact (mem_emptyColsOf.mp hmem).2)
      (by omega)
    exact ⟨h1, by omega, h4⟩
  · rw [if_neg h5]
    by_cases h5b : 5 < rowFilled g row
    · rw [if_pos h5b]
      obtain ⟨h1, h2, _, _, _, h6⟩ := remove_fold_spec hrow (rowFilled g row - 5) g
        (filledColsOf g row) hInv (nodup_filledColsOf g row)
        (fun c hc => by
          obtain ⟨hc1, hc2⟩ := mem_filledColsOf.mp hc
          rw [row_length hInv.1 hrow] at hc1
          exact ⟨hc1, hc2⟩)
        (by rw [length_filledColsOf]; omega)
      exact ⟨h1, by omega, h6⟩
    · rw [if_neg h5b]
      exact ⟨hInv, by omega, fun _ _ => rfl⟩

theorem rowEmptyCount {g : Grid} (hS : Shape g) {row : Nat} (hrow : row < 3)
    (h5 : rowFilled g row = 5) :
    ((g.getD row []).filter (fun n => n.isNone)).length = 4 := by
  have h := length_filter_isNone_add (g.getD row [])
  rw [row_length hS hrow] at h
  unfold rowFilled at h5
  omega

theorem generateTicketGrid_spec (o : RandSrc) (hWF : WFRand o) :
    Inv (generateTicketGrid o) ∧
      ∀ row, row < 3 → rowFilled (generateTicketGrid o) row = 5 := by
  obtain ⟨hb1, hr1, hp1⟩ :=
    balanceRow_spec (o := o) (inv_fillColumns hWF) (show (0 : Nat) < 3 by omega)
  obtain ⟨hb2, hr2, hp2⟩ := balanceRow_spec (o := o) hb1 (show (1 : Nat) < 3 by omega)
  obtain ⟨hb3, hr3, hp3⟩ := balanceRow_spec (o := o) hb2 (show (2 : Nat) < 3 by omega)
  have hred : generateTicketGrid o =
      balanceRow o (balanceRow o (balanceRow o (fillColumns o emptyGrid) 0) 1) 2 := by
    unfold generateTicketGrid
    rw [show List.range 3 = [0, 1, 2] from rfl, List.foldl_cons, List.foldl_cons,
      List.foldl_cons, List.foldl_nil]
  rw [hred]
  refine ⟨hb3, ?_⟩
  intro row hrow
  interval_cases row
  · unfold rowFilled
    rw [hp3 0 (by decide), hp2 0 (by decide)]
    exact hr1
  · unfold rowFilled
    rw [hp3 1 (by decide)]
    exact hr2
  · exact hr3

/-! ## Claim theorems -/

/-- C1: every ticket the generator returns (for any outcome of its
random choices) has exactly 5 filled and 4 empty cells in each of its 3
rows, every filled number lies in its column's designated range
(column 0: 1-9, columns 1-7: 10c to 10c+9, column 8: 80-90, which is
what `inRange` reads off the `ranges` table), and no number occupies two
different cells. -/
theorem C1_generated_ticket_invariants (o : RandSrc) (hWF : WFRand o) :
    (∀ row, row < 3 →
      (((generateTicketGrid o).getD row []).filter (fun n => n.isSome)).length = 5 ∧
      (((generateTicketGrid o).getD row []).filter (fun n => n.isNone)).length = 4) ∧
    (∀ row, row < 3 → ∀ col, col < 9 → ∀ v,
      cell (generateTicketGrid o) row col = some v → inRange col v) ∧
    (∀ r1, r1 < 3 → ∀ c1, c1 < 9 → ∀ r2, r2 < 3 → ∀ c2, c2 < 9 → ∀ v,
      cell (generateTicketGrid o) r1 c1 = some v →
      cell (generateTicketGrid o) r2 c2 = some v → r1 = r2 ∧ c1 = c2) := by
  obtain ⟨⟨hS, hR, hN⟩, h5⟩ := generateTicketGrid_spec o hWF
  refine ⟨?_, hR, hN⟩
  intro row hrow
  exact ⟨h5 row hrow, rowEmptyCount hS hrow (h5 row hrow)⟩

/-- C1 witness: the well-formedness hypothesis is satisfiable; the
theorem applies at the concrete `plainRand` oracle. -/
theorem C1_generated_ticket_invariants_witness :
    (∀ row, row < 3 →
      (((generateTicketGrid plainRand).getD row []).filter (fun n => n.isSome)).length = 5 ∧
      (((generateTicketGrid plainRand).getD row []).filter (fun n => n.isNone)).length = 4) ∧
    (∀ row, row < 3 → ∀ col, col < 9 → ∀ v,
      cell (generateTicketGrid plainRand) row col = some v → inRange col v) ∧
    (∀ r1, r1 < 3 → ∀ c1, c1 < 9 → ∀ r2, r2 < 3 → ∀ c2, c2 < 9 → ∀ v,
      cell (generateTicketGrid plainRand) r1 c1 = some v →
      cell (generateTicketGrid plainRand) r2 c2 = some v → r1 = r2 ∧ c1 = c2) :=
  C1_generated_ticket_invariants plainRand (by decide)

/-- C2: the claim "every column contains at least 1 filled cell" fails
on the code. `skewRand` is a legal outcome of the generator's random
choices (it satisfies `WFRand`) on which the row-0 balancing pass
removes the only cells of columns 5-8 and the later rows refill only
columns 0-4, so the returned ticket's columns 5 and 8 (and 6, 7) hold 0
numbers. The "at most 3" half is trivially true of every grid. -/
theorem C2_empty_column_on_skew_trace :
    (WFRand skewRand ∧
      colFilled (generateTicketGrid skewRand) 5 = 0 ∧
      colFilled (generateTicketGrid skewRand) 8 = 0) ∧
    (∀ g : Grid, ∀ col, colFilled g col ≤ 3) := by
  constructor
  · decide
  · intro g col
    calc colFilled g col ≤ (List.range 3).length := List.length_filter_le _ _
      _ = 3 := by simp

/-- C3 counterexample: with every ticket number marked and a claim state
in which full-house AND second-full-house are both already recorded, the
claim's iff fails: its right-hand side (structurally complete and
full-house claimed) holds, yet `handleClaim` judges the
second-full-house claim invalid, because the code additionally requires
second-full-house itself to be unclaimed. -/
theorem C3_counterexample :
    ¬ ((handleClaimValid fullyMarkedTicket bothFullHousesClaimed ClaimKey.secondFullHouse
        = true) ↔
      ((∀ n ∈ flatTicketNumbers fullyMarkedTicket.numbers,
          n ∈ fullyMarkedTicket.markedNumbers) ∧
        bothFullHousesClaimed.fullHouse = true)) := by
  decide

/-- C3 (amended): the component judges a second-full-house claim valid
iff every non-empty cell of the ticket is marked AND full-house is
already recorded AND second-full-house is not itself recorded yet; in
particular it is invalid whenever full-house has not been claimed. -/
theorem C3_second_full_house (t : TicketData) (s : ClaimState) :
    handleClaimValid t s ClaimKey.secondFullHouse = true ↔
      ((∀ n ∈ flatTicketNumbers t.numbers, n ∈ t.markedNumbers) ∧
        s.fullHouse = true ∧ s.secondFullHouse = false) := by
  simp only [handleClaimValid, checkFullHouse, flatTicketNumbers, Bool.and_eq_true,
    Bool.not_eq_true', List.all_eq_true, decide_eq_true_eq]
  tauto

/-- C4: once a claim type is recorded in the claim state, a repeat
`handleClaim` attempt of the same type (any ticket, any marks) is
rejected and leaves the claim state unchanged. -/
theorem C4_already_claimed_rejected (t : TicketData) (s : ClaimState) (k : ClaimKey)
    (h : s.get k = true) :
    handleClaim t s k = (false, s) := by
  cases k <;> simp_all [handleClaim, handleClaimValid, ClaimState.get]

/-- C4 witness: a concrete repeat first-row claim is rejected. -/
theorem C4_already_claimed_rejected_witness :
    handleClaim fullyMarkedTicket firstRowClaimed ClaimKey.firstRow
      = (false, firstRowClaimed) :=
  C4_already_claimed_rejected fullyMarkedTicket firstRowClaimed ClaimKey.firstRow rfl

/-- C8 counterexample: marking is NOT monotone: toggling the already
marked number 5 removes it from the marked set. -/
theorem C8_counterexample :
    5 ∈ singleMarkTicket.markedNumbers ∧
      ¬ (singleMarkTicket.markedNumbers ⊆ (toggleNumber singleMarkTicket 5).markedNumbers) := by
  decide

/-- C8 (amended): `toggleNumber` toggles: it adds the number when it is
unmarked and removes exactly that number when it is marked (all other
marks unchanged); `resetTicket` clears the marked set entirely. -/
theorem C8_toggle_and_reset (t : TicketData) (s : ClaimState) (n m : Nat) :
    (m ∈ (toggleNumber t n).markedNumbers ↔
      (if m = n then n ∉ t.markedNumbers else m ∈ t.markedNumbers)) ∧
    (resetTicket t s).1.markedNumbers = ∅ := by
  refine ⟨?_, rfl⟩
  unfold toggleNumber
  by_cases hmem : n ∈ t.markedNumbers <;> by_cases hmn : m = n <;>
    simp [hmem, hmn, Finset.mem_erase, Finset.mem_insert]

/-- C10: `resetTicket` empties the marked set and resets all six claim
flags to false, while leaving the ticket's id and its 3x9 number grid
unchanged. -/
theorem C10_reset_frame (t : TicketData) (s : ClaimState) :
    (resetTicket t s).1.id = t.id ∧
    (resetTicket t s).1.numbers = t.numbers ∧
    (resetTicket t s).1.markedNumbers = ∅ ∧
    (resetTicket t s).2.fastFive = false ∧
    (resetTicket t s).2.firstRow = false ∧
    (resetTicket t s).2.secondRow = false ∧
    (resetTicket t s).2.thirdRow = false ∧
    (resetTicket t s).2.fullHouse = false ∧
    (resetTicket t s).2.secondFullHouse = false :=
  ⟨rfl, rfl, rfl, rfl, rfl, rfl, rfl, rfl, rfl⟩

theorem invalid_filter_nil {marked : List Nat} {ticket : Grid}
    (hmarked : ∀ n ∈ marked, n ∈ flatTicketNumbers ticket) :
    marked.filter (fun num => !(flatTicketNumbers ticket).contains num) = [] := by
  rw [List.filter_eq_nil_iff]
  intro n hn
  simp [List.elem_iff, hmarked n hn]

/-- C5 counterexample: with the duplicate list [5, 5, 5, 5, 5] (whose
SET of marked numbers is the singleton set containing 5, i.e. fewer than
5 elements) and the mock ticket, `validateClaim` nevertheless accepts
the fast-five claim: the code counts list entries, not distinct marked
numbers, so the claim's iff fails at this input. -/
theorem C5_counterexample :
    ¬ (((validateClaim "fast-five" [5, 5, 5, 5, 5] (getMockTicket "t")).isValid = true) ↔
      (5 ≤ ([5, 5, 5, 5, 5] : List Nat).dedup.length ∧
        ∀ n ∈ ([5, 5, 5, 5, 5] : List Nat), n ∈ flatTicketNumbers (getMockTicket "t"))) := by
  decide

/-- C5 (amended): a fast-five claim is accepted iff the marked-number
LIST has at least 5 entries (duplicates counted) and every marked number
appears on the ticket; when some marked number is off the ticket, the
result is the invalid-numbers failure whose message enumerates exactly
the off-ticket numbers. -/
theorem C5_fast_five (marked : List Nat) (ticket : Grid) :
    ((validateClaim "fast-five" marked ticket).isValid = true ↔
      (5 ≤ marked.length ∧ ∀ n ∈ marked, n ∈ flatTicketNumbers ticket)) ∧
    ((∃ n ∈ marked, n ∉ flatTicketNumbers ticket) →
      validateClaim "fast-five" marked ticket =
        { isValid := false
          message := "Invalid numbers marked: " ++
            joinComma (marked.filter (fun num => !(flatTicketNumbers ticket).contains num)) }) := by
  by_cases hall : ∀ n ∈ marked, n ∈ flatTicketNumbers ticket
  · have hinv := invalid_filter_nil hall
    constructor
    · simp only [validateClaim, hinv]
      by_cases h5 : marked.length < 5
      · simp [h5, hall]
      · simp [h5]
        exact ⟨by omega, hall⟩
    · rintro ⟨n, hn, hnot⟩
      exact absurd (hall n hn) hnot
  · push_neg at hall
    obtain ⟨n, hn, hnot⟩ := hall
    have hmemf : n ∈ marked.filter (fun num => !(flatTicketNumbers ticket).contains num) := by
      rw [List.mem_filter]
      refine ⟨hn, ?_⟩
      simp [List.elem_iff, hnot]
    have hpos : 0 < (marked.filter (fun num => !(flatTicketNumbers ticket).contains num)).length :=
      List.length_pos.mpr (List.ne_nil_of_mem hmemf)
    constructor
    · simp only [validateClaim, gt_iff_lt]
      rw [if_pos hpos]
      constructor
      · intro h
        simp at h
      · rintro ⟨_, hallx⟩
        exact absurd (hallx n hn) hnot
    · intro _
      simp only [validateClaim, gt_iff_lt]
      rw [if_pos hpos]

/-- C5 witness: the off-ticket branch of the theorem applied at a
concrete input. -/
theorem C5_fast_five_witness :
    validateClaim "fast-five" [99] (getMockTicket "t") =
      { isValid := false, message := "Invalid numbers marked: 99" } := by
  have h := (C5_fast_five [99] (getMockTicket "t")).2 ⟨99, by decide, by decide⟩
  rw [h]
  rfl

/-- C7 counterexample: for an unknown claim type the result DOES depend
on the marked numbers: with the off-ticket mark 99 the invalid-numbers
check fires first and the message is not the generic one. -/
theorem C7_counterexample :
    validateClaim "bogus" [99] (getMockTicket "t") =
      { isValid := false, message := "Invalid numbers marked: 99" } ∧
    validateClaim "bogus" [] (getMockTicket "t") =
      { isValid := false, message := "Invalid claim type" } := by
  constructor <;> rfl

/-- C7 (amended): for a claim type outside the six enumerated ones,
PROVIDED every marked number appears on the ticket (the invalid-numbers
precondition runs first), validation returns the generic invalid result,
independent of which such marked numbers and ticket are given. -/
theorem C7_unknown_claim_type (claimType : String) (marked : List Nat) (ticket : Grid)
    (hct : claimType ∉ validClaimTypes)
    (hmarked : ∀ n ∈ marked, n ∈ flatTicketNumbers ticket) :
    validateClaim claimType marked ticket =
      { isValid := false, message := "Invalid claim type" } := by
  simp only [validClaimTypes, List.mem_cons, List.not_mem_nil, or_false] at hct
  push_neg at hct
  obtain ⟨h1, h2, h3, h4, h5, h6⟩ := hct
  simp only [validateClaim, invalid_filter_nil hmarked]
  simp [h1, h2, h3, h4, h5, h6]

/-- C7 witness: the theorem applied at the concrete claim type "bogus"
with an on-ticket mark. -/
theorem C7_unknown_claim_type_witness :
    validateClaim "bogus" [5] (getMockTicket "t") =
      { isValid := false, message := "Invalid claim type" } :=
  C7_unknown_claim_type "bogus" [5] (getMockTicket "t") (by decide) (by decide)

theorem validateClaim_row (claimType : String) (rowIndex : Nat) (marked : List Nat)
    (ticket : Grid)
    (hct : (claimType = "first-row" ∧ rowIndex = 0) ∨
      (claimType = "second-row" ∧ rowIndex = 1) ∨
      (claimType = "third-row" ∧ rowIndex = 2))
    (hmarked : ∀ n ∈ marked, n ∈ flatTicketNumbers ticket) :
    validateClaim claimType marked ticket =
      if ((ticket.getD rowIndex []).filterMap id).all (fun num => marked.contains num) then
        { isValid := true, message := "Valid " ++ replaceFirst claimType "-" " " ++ " claim" }
      else
        { isValid := false
          message := replaceFirst claimType "-" " " ++ " is not complete. Missing numbers: " ++
            joinComma (((ticket.getD rowIndex []).filterMap id).filter
              (fun num => !marked.contains num)) } := by
  have hinv := invalid_filter_nil hmarked
  rcases hct with ⟨h1, h2⟩ | ⟨h1, h2⟩ | ⟨h1, h2⟩
  · subst h1
    subst h2
    simp only [validateClaim, hinv]
    rw [if_neg (by decide : ¬ (([] : List Nat).length > 0)),
      if_neg (by decide : ¬ ("first-row" = "fast-five"))]
    simp only [true_or, or_true, if_true]
    cases hb : ((ticket.getD 0 []).filterMap id).all (fun num => marked.contains num)
    · rw [if_pos (by decide : (!false) = true), if_neg (by decide : ¬ (false = true))]
    · rw [if_neg (by decide : ¬ ((!true) = true)), if_pos (rfl : true = true)]
  · subst h1
    subst h2
    simp only [validateClaim, hinv]
    rw [if_neg (by decide : ¬ (([] : List Nat).length > 0)),
      if_neg (by decide : ¬ ("second-row" = "fast-five")),
      if_neg (by decide : ¬ ("second-row" = "first-row"))]
    simp only [true_or, or_true, if_true]
    cases hb : ((ticket.getD 1 []).filterMap id).all (fun num => marked.contains num)
    · rw [if_pos (by decide : (!false) = true), if_neg (by decide : ¬ (false = true))]
    · rw [if_neg (by decide : ¬ ((!true) = true)), if_pos (rfl : true = true)]
  · subst h1
    subst h2
    simp only [validateClaim, hinv]
    rw [if_neg (by decide : ¬ (([] : List Nat).length > 0)),
      if_neg (by decide : ¬ ("third-row" = "fast-five")),
      if_neg (by decide : ¬ ("third-row" = "first-row")),
      if_neg (by decide : ¬ ("third-row" = "second-row"))]
    simp only [true_or, or_true, if_true]
    cases hb : ((ticket.getD 2 []).filterMap id).all (fun num => marked.contains num)
    · rw [if_pos (by decide : (!false) = true), if_neg (by decide : ¬ (false = true))]
    · rw [if_neg (by decide : ¬ ((!true) = true)), if_pos (rfl : true = true)]

/-- C6: with every marked number on the ticket, a first/second/third-row
claim is accepted iff every non-empty cell of the corresponding row
(index 0/1/2) is among the marked numbers; on failure the message lists
exactly the row numbers missing from the marked numbers. -/
theorem C6_row_claims (claimType : String) (rowIndex : Nat) (marked : List Nat)
    (ticket : Grid)
    (hct : (claimType = "first-row" ∧ rowIndex = 0) ∨
      (claimType = "second-row" ∧ rowIndex = 1) ∨
      (claimType = "third-row" ∧ rowIndex = 2))
    (hmarked : ∀ n ∈ marked, n ∈ flatTicketNumbers ticket) :
    ((validateClaim claimType marked ticket).isValid = true ↔
      ∀ n ∈ (ticket.getD rowIndex []).filterMap id, n ∈ marked) ∧
    ((∃ n ∈ (ticket.getD rowIndex []).filterMap id, n ∉ marked) →
      (validateClaim claimType marked ticket).message =
        replaceFirst claimType "-" " " ++ " is not complete. Missing numbers: " ++
          joinComma (((ticket.getD rowIndex []).filterMap id).filter
            (fun num => !marked.contains num))) := by
  rw [validateClaim_row claimType rowIndex marked ticket hct hmarked]
  cases hb : ((ticket.getD rowIndex []).filterMap id).all (fun num => marked.contains num)
  · rw [if_neg (by decide : ¬ (false = true))]
    constructor
    · constructor
      · intro h
        simp at h
      · intro hallm
        have hba : ((ticket.getD rowIndex []).filterMap id).all
            (fun num => marked.contains num) = true := by
          rw [List.all_eq_true]
          intro n hn
          simp [List.elem_iff, hallm n hn]
        rw [hba] at hb
        exact Bool.noConfusion hb
    · intro _
      rfl
  · rw [if_pos (rfl : true = true)]
    rw [List.all_eq_true] at hb
    constructor
    · constructor
      · intro _ n hn
        have := hb n hn
        simpa [List.elem_iff] using this
      · intro _
        rfl
    · rintro ⟨n, hn, hnot⟩
      have := hb n hn
      rw [List.elem_iff] at this
      exact absurd this hnot

/-- C6 witness: the theorem applied at the concrete first-row instance
of the mock ticket with the number 89 unmarked. -/
theorem C6_row_claims_witness :
    (validateClaim "first-row" [5, 23, 45, 67] (getMockTicket "t")).message =
      "first row is not complete. Missing numbers: 89" := by
  have h := (C6_row_claims "first-row" 0 [5, 23, 45, 67] (getMockTicket "t")
    (Or.inl ⟨rfl, rfl⟩) (by decide)).2 ⟨89, by decide, by decide⟩
  rw [h]
  rfl

/-- C9: `getMockTicket` returns the same grid for every ticket id, and
consequently the POST claim route's validation outcome (status, success
flag, message, validity flag and prize) depends only on the claim type
and the marked numbers: two well-formed requests agreeing on those two
fields receive the same outcome regardless of their tournament, user and
ticket ids (only the echoed `claimId` string differs). -/
theorem C9_outcome_independent_of_ids (r1 r2 : ClaimRequest) (n1 n2 : Nat)
    (h1 : r1.tournamentId ≠ "" ∧ r1.userId ≠ "" ∧ r1.ticketId ≠ "" ∧
      r1.claimType ≠ "" ∧ r1.userToken ≠ "")
    (h2 : r2.tournamentId ≠ "" ∧ r2.userId ≠ "" ∧ r2.ticketId ≠ "" ∧
      r2.claimType ≠ "" ∧ r2.userToken ≠ "")
    (hct : r1.claimType = r2.claimType) (hm : r1.markedNumbers = r2.markedNumbers) :
    (∀ a b : String, getMockTicket a = getMockTicket b) ∧
    (postClaim r1 n1).status = (postClaim r2 n2).status ∧
    (postClaim r1 n1).success = (postClaim r2 n2).success ∧
    (postClaim r1 n1).message = (postClaim r2 n2).message ∧
    (postClaim r1 n1).isValid = (postClaim r2 n2).isValid ∧
    (postClaim r1 n1).prizeAmount = (postClaim r2 n2).prizeAmount := by
  refine ⟨fun a b => rfl, ?_⟩
  obtain ⟨h1a, h1b, h1c, h1d, h1e⟩ := h1
  obtain ⟨h2a, h2b, h2c, h2d, h2e⟩ := h2
  have hmock : getMockTicket r2.ticketId = getMockTicket r1.ticketId := rfl
  have hA : ¬ (r1.tournamentId = "" ∨ r1.userId = "" ∨ r1.ticketId = "" ∨
      r1.claimType = "" ∨ r1.userToken = "") := by
    simp [h1a, h1b, h1c, h1d, h1e]
  have hB : ¬ (r2.tournamentId = "" ∨ r2.userId = "" ∨ r2.ticketId = "" ∨
      r2.claimType = "" ∨ r2.userToken = "") := by
    simp [h2a, h2b, h2c, h2d, h2e]
  simp only [postClaim]
  rw [if_neg hA, if_neg hB, hmock, ← hct, ← hm]
  cases hv : validClaimTypes.contains r1.claimType
  · rw [if_pos (by decide : (!false) = true)]
    exact ⟨rfl, rfl, rfl, rfl, rfl⟩
  · rw [if_neg (by decide : ¬ ((!true) = true))]
    cases hval :
        (validateClaim r1.claimType r1.markedNumbers (getMockTicket r1.ticketId)).isValid
    · rw [if_pos (by decide : (!false) = true)]
      exact ⟨rfl, rfl, rfl, rfl, rfl⟩
    · rw [if_neg (by decide : ¬ ((!true) = true))]
      exact ⟨rfl, rfl, rfl, rfl, rfl⟩

/-- C9 witness: two concrete requests differing in every id field but
agreeing on claim type and marked numbers receive the same validation
outcome. -/
theorem C9_outcome_independent_of_ids_witness :
    (postClaim reqA 1).status = (postClaim reqB 2).status ∧
    (postClaim reqA 1).success = (postClaim reqB 2).success ∧
    (postClaim reqA 1).message = (postClaim reqB 2).message ∧
    (postClaim reqA 1).isValid = (postClaim reqB 2).isValid ∧
    (postClaim reqA 1).prizeAmount = (postClaim reqB 2).prizeAmount :=
  (C9_outcome_independent_of_ids reqA reqB 1 2
    ⟨by decide, by decide, by decide, by decide, by decide⟩
    ⟨by decide, by decide, by decide, by decide, by decide⟩ rfl rfl).2

end Tambola
